import Mathlib

/-!
Verification development for the purple-proxy sampling/storage pipeline
(`home/purpleproxy/bin/monitor/monitor.py` and `home/purpleproxy/bin/server/server.py`).

Modelling conventions:
* Python `float` values are modelled as `ℚ` (the program only adds, divides and
  compares sensor values; no rounding behaviour of binary floats is relied upon
  by any statement proved here).
* Python `int` is `ℤ`.
* `datetime` values are modelled at whole-second granularity as Unix timestamps
  (`ℤ`); `int(r.time_of_reading.timestamp())` in `save_reading` is then the
  identity on the model.
* `None`-able fields are `Option` fields.
* The sqlite store is modelled as the two tables of `Database.create`, each a
  list of rows in insertion order.  A failing statement inside the
  `with sqlite3.connect(...)` block rolls the transaction back, which the model
  expresses by returning `Except.error` and leaving the caller's state unused.
-/

/-- Python `int(x)` on a float: truncation toward zero. -/
def pyint (q : ℚ) : ℤ := if q < 0 then -⌊-q⌋ else ⌊q⌋

theorem pyint_eq_floor_of_nonneg {q : ℚ} (h : 0 ≤ q) : pyint q = ⌊q⌋ := by
  unfold pyint
  rw [if_neg (not_lt.mpr h)]

/-- `class RGB` of monitor.py. -/
structure RGB where
  red : ℤ
  green : ℤ
  blue : ℤ
deriving DecidableEq

/-- `class SensorData` of monitor.py: one physical sensor's channels. -/
structure SensorData where
  pm1_0_cf_1 : ℚ
  pm1_0_atm : ℚ
  pm2_5_cf_1 : ℚ
  pm2_5_atm : ℚ
  pm10_0_cf_1 : ℚ
  pm10_0_atm : ℚ
  p_0_3_um : ℚ
  p_0_5_um : ℚ
  p_1_0_um : ℚ
  p_2_5_um : ℚ
  p_5_0_um : ℚ
  p_10_0_um : ℚ
  pm2_5_aqi : ℤ
  p25aqic : RGB
deriving DecidableEq

/-- `class Reading` of monitor.py: one timestamped sample. -/
structure Reading where
  time_of_reading : ℤ
  current_temp_f : ℤ
  current_humidity : ℤ
  current_dewpoint_f : ℤ
  pressure : ℚ
  current_temp_f_680 : Option ℤ
  current_humidity_680 : Option ℤ
  current_dewpoint_f_680 : Option ℤ
  pressure_680 : Option ℚ
  gas_680 : Option ℚ
  sensor : SensorData
  sensor_b : Option SensorData
deriving DecidableEq

/-- `Service.sum_rgb`. -/
def sum_rgb (rgb1 rgb2 : RGB) : RGB :=
  { red := rgb1.red + rgb2.red
    green := rgb1.green + rgb2.green
    blue := rgb1.blue + rgb2.blue }

/-- `Service.sum_sensor`. -/
def sum_sensor (sensor1 sensor2 : SensorData) : SensorData :=
  { pm1_0_cf_1 := sensor1.pm1_0_cf_1 + sensor2.pm1_0_cf_1
    pm1_0_atm := sensor1.pm1_0_atm + sensor2.pm1_0_atm
    pm2_5_cf_1 := sensor1.pm2_5_cf_1 + sensor2.pm2_5_cf_1
    pm2_5_atm := sensor1.pm2_5_atm + sensor2.pm2_5_atm
    pm10_0_cf_1 := sensor1.pm10_0_cf_1 + sensor2.pm10_0_cf_1
    pm10_0_atm := sensor1.pm10_0_atm + sensor2.pm10_0_atm
    p_0_3_um := sensor1.p_0_3_um + sensor2.p_0_3_um
    p_0_5_um := sensor1.p_0_5_um + sensor2.p_0_5_um
    p_1_0_um := sensor1.p_1_0_um + sensor2.p_1_0_um
    p_2_5_um := sensor1.p_2_5_um + sensor2.p_2_5_um
    p_5_0_um := sensor1.p_5_0_um + sensor2.p_5_0_um
    p_10_0_um := sensor1.p_10_0_um + sensor2.p_10_0_um
    pm2_5_aqi := sensor1.pm2_5_aqi + sensor2.pm2_5_aqi
    p25aqic := sum_rgb sensor1.p25aqic sensor2.p25aqic }

/-- `Service.average_sensor`.  Python divides ints with `/` (true division) and
rounds the integer channels with `int(x / count + 0.5)`. -/
def average_sensor (summed_sensor : SensorData) (count : ℤ) : SensorData :=
  { pm1_0_cf_1 := summed_sensor.pm1_0_cf_1 / (count : ℚ)
    pm1_0_atm := summed_sensor.pm1_0_atm / (count : ℚ)
    pm2_5_cf_1 := summed_sensor.pm2_5_cf_1 / (count : ℚ)
    pm2_5_atm := summed_sensor.pm2_5_atm / (count : ℚ)
    pm10_0_cf_1 := summed_sensor.pm10_0_cf_1 / (count : ℚ)
    pm10_0_atm := summed_sensor.pm10_0_atm / (count : ℚ)
    p_0_3_um := summed_sensor.p_0_3_um / (count : ℚ)
    p_0_5_um := summed_sensor.p_0_5_um / (count : ℚ)
    p_1_0_um := summed_sensor.p_1_0_um / (count : ℚ)
    p_2_5_um := summed_sensor.p_2_5_um / (count : ℚ)
    p_5_0_um := summed_sensor.p_5_0_um / (count : ℚ)
    p_10_0_um := summed_sensor.p_10_0_um / (count : ℚ)
    pm2_5_aqi := pyint ((summed_sensor.pm2_5_aqi : ℚ) / (count : ℚ) + 1/2)
    p25aqic :=
      { red := pyint ((summed_sensor.p25aqic.red : ℚ) / (count : ℚ) + 1/2)
        green := pyint ((summed_sensor.p25aqic.green : ℚ) / (count : ℚ) + 1/2)
        blue := pyint ((summed_sensor.p25aqic.blue : ℚ) / (count : ℚ) + 1/2) } }

/-- The ten-way `is not None` test of `Service.compute_avg`'s loop body: the
summed secondary suite, or `none` when any of the ten operands is `None`. -/
def env680Sum (summed reading : Reading) :
    Option (ℤ × ℤ × ℤ × ℚ × ℚ) :=
  match summed.current_temp_f_680, reading.current_temp_f_680,
      summed.current_humidity_680, reading.current_humidity_680,
      summed.current_dewpoint_f_680, reading.current_dewpoint_f_680,
      summed.pressure_680, reading.pressure_680,
      summed.gas_680, reading.gas_680 with
  | some a1, some b1, some a2, some b2, some a3, some b3, some a4, some b4,
      some a5, some b5 =>
    some (a1 + b1, a2 + b2, a3 + b3, a4 + b4, a5 + b5)
  | _, _, _, _, _, _, _, _, _, _ => none

/-- One iteration of `Service.compute_avg`'s summing loop. -/
def sum_step (summed reading : Reading) : Reading :=
  { time_of_reading := reading.time_of_reading
    current_temp_f := summed.current_temp_f + reading.current_temp_f
    current_humidity := summed.current_humidity + reading.current_humidity
    current_dewpoint_f := summed.current_dewpoint_f + reading.current_dewpoint_f
    pressure := summed.pressure + reading.pressure
    current_temp_f_680 := (env680Sum summed reading).map (fun v => v.1)
    current_humidity_680 := (env680Sum summed reading).map (fun v => v.2.1)
    current_dewpoint_f_680 := (env680Sum summed reading).map (fun v => v.2.2.1)
    pressure_680 := (env680Sum summed reading).map (fun v => v.2.2.2.1)
    gas_680 := (env680Sum summed reading).map (fun v => v.2.2.2.2)
    sensor := sum_sensor summed.sensor reading.sensor
    sensor_b :=
      match summed.sensor_b, reading.sensor_b with
      | some sb, some rb => some (sum_sensor sb rb)
      | _, _ => none }

/-- `Service.compute_avg`.  The source indexes `readings[0]` and is only called
on non-empty lists; the model returns `none` on the empty list. -/
def compute_avg (readings : List Reading) : Option Reading :=
  match readings with
  | [] => none
  | r0 :: rest =>
    let summed_reading := rest.foldl sum_step r0
    let count : ℤ := (readings.length : ℤ)
    some
      { time_of_reading := summed_reading.time_of_reading
        current_temp_f := pyint ((summed_reading.current_temp_f : ℚ) / (count : ℚ) + 1/2)
        current_humidity := pyint ((summed_reading.current_humidity : ℚ) / (count : ℚ) + 1/2)
        current_dewpoint_f := pyint ((summed_reading.current_dewpoint_f : ℚ) / (count : ℚ) + 1/2)
        pressure := summed_reading.pressure / (count : ℚ)
        current_temp_f_680 :=
          summed_reading.current_temp_f_680.map (fun v => pyint ((v : ℚ) / (count : ℚ) + 1/2))
        current_humidity_680 :=
          summed_reading.current_humidity_680.map (fun v => pyint ((v : ℚ) / (count : ℚ) + 1/2))
        current_dewpoint_f_680 :=
          summed_reading.current_dewpoint_f_680.map (fun v => pyint ((v : ℚ) / (count : ℚ) + 1/2))
        pressure_680 := summed_reading.pressure_680.map (fun v => v / (count : ℚ))
        gas_680 := summed_reading.gas_680.map (fun v => v / (count : ℚ))
        sensor := average_sensor summed_reading.sensor count
        sensor_b := summed_reading.sensor_b.map (fun sb => average_sensor sb count) }

/-- Test fixture: an all-zero sensor. -/
def zeroSensor : SensorData where
  pm1_0_cf_1 := 0
  pm1_0_atm := 0
  pm2_5_cf_1 := 0
  pm2_5_atm := 0
  pm10_0_cf_1 := 0
  pm10_0_atm := 0
  p_0_3_um := 0
  p_0_5_um := 0
  p_1_0_um := 0
  p_2_5_um := 0
  p_5_0_um := 0
  p_10_0_um := 0
  pm2_5_aqi := 0
  p25aqic := { red := 0, green := 0, blue := 0 }

/-- Test fixture: a baseline reading with no secondary suite and no B sensor. -/
def baseReading : Reading where
  time_of_reading := 5
  current_temp_f := 50
  current_humidity := 40
  current_dewpoint_f := 30
  pressure := 1026
  current_temp_f_680 := none
  current_humidity_680 := none
  current_dewpoint_f_680 := none
  pressure_680 := none
  gas_680 := none
  sensor := zeroSensor
  sensor_b := none

example :
    (compute_avg [{ baseReading with sensor := { zeroSensor with pm2_5_aqi := 9 } },
        { baseReading with time_of_reading := 6, current_temp_f := 100,
                           current_humidity := 20, current_dewpoint_f := 40,
                           pressure := 1024, sensor := { zeroSensor with pm2_5_aqi := 2 } }]).map
      (fun r => (r.current_temp_f, r.current_humidity, r.sensor.pm2_5_aqi))
    = some (75, 30, 6) := by
  simp [compute_avg, sum_step, sum_sensor, sum_rgb, average_sensor, env680Sum, pyint,
    baseReading, zeroSensor]
  norm_num [Int.floor_eq_iff]

/-- `RecordType.CURRENT` in monitor.py. -/
def RecordType.CURRENT : ℤ := 0

/-- `RecordType.ARCHIVE` in monitor.py. -/
def RecordType.ARCHIVE : ℤ := 1

/-- `RecordType.TWO_MINUTE` in monitor.py. -/
def RecordType.TWO_MINUTE : ℤ := 2

/-- `Sensor.A` in monitor.py: the sensor-index column value of the primary sensor. -/
def Sensor.A : ℤ := 0

/-- `Sensor.B` in monitor.py: the sensor-index column value of the secondary sensor. -/
def Sensor.B : ℤ := 1

/-- One row of the `Reading` table of `Database.create`. -/
structure ReadingRow where
  record_type : ℤ
  timestamp : ℤ
  current_temp_f : ℤ
  current_humidity : ℤ
  current_dewpoint_f : ℤ
  pressure : ℚ
  current_temp_f_680 : Option ℤ
  current_humidity_680 : Option ℤ
  current_dewpoint_f_680 : Option ℤ
  pressure_680 : Option ℚ
  gas_680 : Option ℚ
deriving DecidableEq

/-- One row of the `Sensor` table of `Database.create`; the 14 channel columns
are grouped as a `SensorData` exactly as `save_sensor` flattens one. -/
structure SensorRow where
  record_type : ℤ
  timestamp : ℤ
  sensor : ℤ
  data : SensorData
deriving DecidableEq

/-- The sqlite store: both tables, rows in insertion order. -/
structure Db where
  readingTable : List ReadingRow
  sensorTable : List SensorRow
deriving DecidableEq

/-- A freshly created database. -/
def dbEmpty : Db := { readingTable := [], sensorTable := [] }

/-- The row `save_reading` inserts into the `Reading` table, or `none` on the
branch that leaves `insert_reading_sql` unbound (`gas_680` present but one of
the other four secondary fields `None`), where the function raises
`UnboundLocalError`.  When `gas_680 is None` the other four secondary fields
are not written at all. -/
def readingRowOf (record_type : ℤ) (r : Reading) : Option ReadingRow :=
  match r.gas_680 with
  | none =>
    some
      { record_type := record_type
        timestamp := r.time_of_reading
        current_temp_f := r.current_temp_f
        current_humidity := r.current_humidity
        current_dewpoint_f := r.current_dewpoint_f
        pressure := r.pressure
        current_temp_f_680 := none
        current_humidity_680 := none
        current_dewpoint_f_680 := none
        pressure_680 := none
        gas_680 := none }
  | some g =>
    match r.current_temp_f_680, r.current_humidity_680, r.current_dewpoint_f_680,
        r.pressure_680 with
    | some t6, some h6, some d6, some p6 =>
      some
        { record_type := record_type
          timestamp := r.time_of_reading
          current_temp_f := r.current_temp_f
          current_humidity := r.current_humidity
          current_dewpoint_f := r.current_dewpoint_f
          pressure := r.pressure
          current_temp_f_680 := some t6
          current_humidity_680 := some h6
          current_dewpoint_f_680 := some d6
          pressure_680 := some p6
          gas_680 := some g }
    | _, _, _, _ => none

/-- The rows `save_reading` inserts into the `Sensor` table via `save_sensor`:
sensor-index 0 always, sensor-index 1 when `sensor_b` is present. -/
def sensorRowsOf (record_type : ℤ) (r : Reading) : List SensorRow :=
  { record_type := record_type, timestamp := r.time_of_reading, sensor := 0,
      data := r.sensor } ::
    (match r.sensor_b with
     | some sb =>
       [{ record_type := record_type, timestamp := r.time_of_reading, sensor := 1,
           data := sb }]
     | none => [])

/-- The two `DELETE FROM ... WHERE record_type = ...` statements of
`save_reading` for one tier. -/
def deleteTier (db : Db) (record_type : ℤ) : Db :=
  { readingTable := db.readingTable.filter (fun row => decide (row.record_type ≠ record_type))
    sensorTable := db.sensorTable.filter (fun row => decide (row.record_type ≠ record_type)) }

/-- Primary-key violation test for the inserts of one `save_reading` call
(`PRIMARY KEY (record_type, timestamp)` on `Reading`,
`PRIMARY KEY (record_type, timestamp, sensor)` on `Sensor`). -/
def insertConflicts (db : Db) (row : ReadingRow) (srows : List SensorRow) : Bool :=
  db.readingTable.any
      (fun x => decide (x.record_type = row.record_type) && decide (x.timestamp = row.timestamp)) ||
    srows.any (fun s =>
      db.sensorTable.any (fun x =>
        decide (x.record_type = s.record_type) && decide (x.timestamp = s.timestamp) &&
          decide (x.sensor = s.sensor)))

/-- The exceptions the storage layer can raise: the `UnboundLocalError` of
`save_reading`'s partially-populated secondary suite branch, a sqlite
`IntegrityError` on a duplicate primary key, and the `UnexpectedSensorRecord`
of the read path. -/
inductive DbError
  | missing680
  | duplicateKey
  | unexpectedSensorRecord
deriving DecidableEq

/-- `Database.save_reading`.  All statements run inside one
`with sqlite3.connect(...)` transaction: on any raise the deletes are rolled
back, which the model expresses by returning the error and leaving the input
`db` untouched. -/
def save_reading (record_type : ℤ) (r : Reading) (db : Db) : Except DbError Db :=
  match readingRowOf record_type r with
  | none => Except.error DbError.missing680
  | some row =>
    let db1 := if record_type = RecordType.CURRENT then deleteTier db RecordType.CURRENT else db
    let db2 := if record_type = RecordType.TWO_MINUTE then deleteTier db1 RecordType.TWO_MINUTE else db1
    let srows := sensorRowsOf record_type r
    if insertConflicts db2 row srows then Except.error DbError.duplicateKey
    else
      Except.ok
        { readingTable := db2.readingTable ++ [row]
          sensorTable := db2.sensorTable ++ srows }

/-- One row of the `SELECT ... FROM Reading, Sensor` join in `fetch_readings`:
columns 0-9 come from the `Reading` table, columns 10-26 from the `Sensor`
table. -/
structure JoinedRow where
  shared : ReadingRow
  sensorPart : SensorRow
deriving DecidableEq

/-- `Database.create_reading_from_row`. -/
def create_reading_from_row (row : JoinedRow) : Except DbError Reading :=
  if row.sensorPart.sensor = Sensor.B then Except.error DbError.unexpectedSensorRecord
  else
    Except.ok
      { time_of_reading := row.shared.timestamp
        current_temp_f := row.shared.current_temp_f
        current_humidity := row.shared.current_humidity
        current_dewpoint_f := row.shared.current_dewpoint_f
        pressure := row.shared.pressure
        current_temp_f_680 := row.shared.current_temp_f_680
        current_humidity_680 := row.shared.current_humidity_680
        current_dewpoint_f_680 := row.shared.current_dewpoint_f_680
        pressure_680 := row.shared.pressure_680
        gas_680 := row.shared.gas_680
        sensor := row.sensorPart.data
        sensor_b := none }

/-- `Database.add_to_reading_from_row`. -/
def add_to_reading_from_row (reading : Reading) (row : JoinedRow) : Except DbError Reading :=
  if row.sensorPart.sensor = Sensor.A then Except.error DbError.unexpectedSensorRecord
  else Except.ok { reading with sensor_b := some row.sensorPart.data }

/-- The row-pairing loop of `Database.fetch_readings`, with the pending reading
(`reading` in the source, reset to `None` after each completed pair) as the
second argument.  A raised exception is modelled as `Except.error`. -/
def processRows : List JoinedRow → Option Reading → Except DbError (List Reading)
  | [], none => Except.ok []
  | [], some pending => Except.ok [pending]
  | row :: rest, none =>
    match create_reading_from_row row with
    | Except.error e => Except.error e
    | Except.ok reading => processRows rest (some reading)
  | row :: rest, some pending =>
    if row.sensorPart.sensor = 1 then
      match add_to_reading_from_row pending row with
      | Except.error e => Except.error e
      | Except.ok merged =>
        match processRows rest none with
        | Except.error e => Except.error e
        | Except.ok tail => Except.ok (merged :: tail)
    else
      match create_reading_from_row row with
      | Except.error e => Except.error e
      | Except.ok fresh =>
        match processRows rest (some fresh) with
        | Except.error e => Except.error e
        | Except.ok tail => Except.ok (pending :: tail)

/-- Stable insertion of a `Reading`-table row into a timestamp-sorted list
(rows with equal timestamps cannot occur within one tier thanks to the primary
key, and ties would keep insertion order, as sqlite's scan does). -/
def insertByTimestamp (row : ReadingRow) : List ReadingRow → List ReadingRow
  | [] => [row]
  | y :: ys =>
    if row.timestamp < y.timestamp then row :: y :: ys else y :: insertByTimestamp row ys

/-- `ORDER BY Reading.timestamp` of the `fetch_readings` SELECT (the second
sort key, `Sensor.record_type`, is constant over the result set). -/
def orderByTimestamp (rows : List ReadingRow) : List ReadingRow :=
  rows.foldl (fun acc row => insertByTimestamp row acc) []

/-- The `SELECT ... FROM Reading, Sensor WHERE ...` join of `fetch_readings`:
`Reading`-table rows of the tier inside the `(since_ts, max_ts]` window,
ordered by timestamp, each paired with its tier's `Sensor` rows of the same
timestamp in insertion order. -/
def fetch_join (db : Db) (record_type : ℤ) (since_ts : ℤ) (max_ts : Option ℤ) :
    List JoinedRow :=
  let shared := db.readingTable.filter (fun x =>
    decide (x.record_type = record_type) && decide (since_ts < x.timestamp) &&
      (match max_ts with
       | some m => decide (x.timestamp ≤ m)
       | none => true))
  (orderByTimestamp shared).flatMap (fun rr =>
    (db.sensorTable.filter (fun s =>
        decide (s.record_type = record_type) && decide (s.timestamp = rr.timestamp))).map
      (fun s => { shared := rr, sensorPart := s }))

/-- `Database.fetch_readings` (with the generator run to a list; values the
Python generator yields before raising are dropped together with the raise,
which is all the statements below depend on). -/
def fetch_readings (db : Db) (record_type : ℤ) (since_ts : ℤ) (max_ts : Option ℤ)
    (limit : Option ℤ) : Except DbError (List Reading) :=
  let rows := fetch_join db record_type since_ts max_ts
  let rows :=
    match limit with
    | some n => if n < 0 then rows else rows.take n.toNat
    | none => rows
  processRows rows none

example :
    (save_reading RecordType.ARCHIVE baseReading dbEmpty).bind
      (fun db => fetch_readings db RecordType.ARCHIVE 0 none none) =
      Except.ok [baseReading] := rfl

/-- `class Event` of monitor.py. -/
inductive Event
  | POLL
  | ARCHIVE
deriving DecidableEq

/-- `Service.compute_next_event` (the `first_time` parameter is unused by the
source function).  `time.time()` is the `now` argument; `int(...)` on the float
quotients is `pyint`. -/
def compute_next_event (now : ℚ) (pollfreq_secs arcint_secs pollfreq_offset : ℤ) :
    Event × ℚ :=
  let next_poll_event : ℤ := pyint (now / (pollfreq_secs : ℚ)) * pollfreq_secs + pollfreq_secs
  let next_arc_event : ℤ := pyint (now / (arcint_secs : ℚ)) * arcint_secs + arcint_secs
  let event := if next_poll_event = next_arc_event then Event.ARCHIVE else Event.POLL
  let secs_to_event : ℚ := (next_poll_event : ℚ) - now + (pollfreq_offset : ℚ)
  (event, secs_to_event)

/-- Modelled from the spec: `twenty_fold_delta(a, b)` of the cross-sensor
agreement check (spec section 4.1, check 5).  The function belongs to the
final, most capable revision of the monitor module, which is not among the
provided source files (the provided `monitor.py` revision's `is_sane` performs
type checks only): false if either value is exactly zero, otherwise true if
one value exceeds 20 times the other and the absolute difference is at least
10.0. -/
def twenty_fold_delta (a b : ℚ) : Bool :=
  if a = 0 ∨ b = 0 then false
  else decide ((a > 20 * b ∨ b > 20 * a) ∧ |a - b| ≥ 10)

/-- Modelled from the spec: the production validator `validate(reading)` of the
final revision (spec section 4.1), absent from the provided source files.  The
type checks (items 2-4; `is_sane`/`is_sensor_sane` in the provided revision
test only `isinstance`) hold by construction in this typed model, so the two
checks with semantic content remain: the timestamp must be within 20 seconds
of wall-clock now (item 1), and, when a secondary sensor is present, no
calibration-factor channel may fail `twenty_fold_delta` (item 5).  The reason
string of the source contract is not modelled. -/
def validate (now : ℤ) (reading : Reading) : Bool :=
  if ¬ (|now - reading.time_of_reading| ≤ 20) then false
  else
    match reading.sensor_b with
    | none => true
    | some sb =>
      if twenty_fold_delta reading.sensor.pm1_0_cf_1 sb.pm1_0_cf_1 then false
      else if twenty_fold_delta reading.sensor.pm2_5_cf_1 sb.pm2_5_cf_1 then false
      else if twenty_fold_delta reading.sensor.pm10_0_cf_1 sb.pm10_0_cf_1 then false
      else true

/-- Step 3 of one `Service.do_loop` iteration: validate the collected reading;
if sane, append it to both buffers and persist it as the `CURRENT` record (a
storage failure is logged and otherwise ignored); if insane, log and change
nothing.  The gate is the spec-modelled `validate` (the provided revision
calls its type-check-only `is_sane` here). -/
def process_sample (now : ℤ) (reading : Reading)
    (archive_readings two_minute_readings : List Reading) (db : Db) :
    List Reading × List Reading × Db :=
  if validate now reading then
    let db2 :=
      match save_reading RecordType.CURRENT reading db with
      | Except.ok dbNew => dbNew
      | Except.error _ => db
    (archive_readings ++ [reading], two_minute_readings ++ [reading], db2)
  else (archive_readings, two_minute_readings, db)

/-- Python `str.split(sep)` for a one-character separator, over the character
list of the string. -/
def splitOnChar (sep : Char) : List Char → List (List Char)
  | [] => [[]]
  | c :: rest =>
    let r := splitOnChar sep rest
    if c = sep then [] :: r
    else
      match r with
      | [] => [[c]]
      | w :: ws => (c :: w) :: ws

/-- Python dict assignment `d[k] = v` on an insertion-ordered association
list. -/
def dictSet : List (List Char × List Char) → List Char → List Char →
    List (List Char × List Char)
  | [], k, v => [(k, v)]
  | (k2, v2) :: rest, k, v =>
    if k2 = k then (k2, v) :: rest else (k2, v2) :: dictSet rest k v

/-- Python dict lookup `d[k]` / `k in d` on the association list. -/
def dictGet : List (List Char × List Char) → List Char → Option (List Char)
  | [], _ => none
  | (k2, v2) :: rest, k => if k2 = k then some v2 else dictGet rest k

/-- `Handler.parse_args` of server.py: split on commas; each part containing
an equals sign and a non-empty key contributes key-value; everything else is
dropped. -/
def parse_args (args_in : List Char) : List (List Char × List Char) :=
  (splitOnChar ',' args_in).foldl
    (fun args_dict arg =>
      let key_value := splitOnChar '=' arg
      if key_value.length ≥ 2 then
        if key_value.headD [] ≠ [] then
          dictSet args_dict (key_value.headD []) (key_value.getD 1 [])
        else args_dict
      else args_dict)
    []

/-- Decimal digit accumulation for `pyIntOfChars`; `none` when the list is
empty or contains a non-digit. -/
def digitsToNat : List Char → Option ℕ
  | [] => none
  | s =>
    s.foldl
      (fun acc c =>
        match acc with
        | none => none
        | some n => if '0' ≤ c ∧ c ≤ '9' then some (10 * n + (c.toNat - '0'.toNat)) else none)
      (some 0)

/-- Python `int(string)`: an optional sign followed by at least one decimal
digit (the surrounding whitespace and digit-group underscores `int` also
accepts do not occur in the request lines modelled here). -/
def pyIntOfChars (s : List Char) : Option ℤ :=
  match s with
  | '-' :: rest => (digitsToNat rest).map (fun n => -(n : ℤ))
  | '+' :: rest => (digitsToNat rest).map (fun n => (n : ℤ))
  | _ => (digitsToNat s).map (fun n => (n : ℤ))

/-- `class RequestType` of server.py. -/
inductive RequestType
  | ERROR
  | GET_VERSION
  | GET_EARLIEST_TIMESTAMP
  | FETCH_CURRENT_RECORD
  | FETCH_TWO_MINUTE_RECORD
  | FETCH_ARCHIVE_RECORDS
deriving DecidableEq

/-- `class Request` of server.py. -/
structure Request where
  request_type : RequestType
  since_ts : Option ℤ
  max_ts : Option ℤ
  limit : Option ℤ
  error : Option (List Char)
  request : List Char
deriving DecidableEq

/-- `Handler.parse_requestline` of server.py.  (The source's `split(' ')[1]`
would raise on a request line without a space; the model substitutes the empty
string, which the statements below never exercise.  Error strings omit the
source's quote characters around interpolated values; no statement below
depends on error text.) -/
def parse_requestline (requestline : List Char) : Request :=
  let request := (splitOnChar ' ' requestline).getD 1 []
  let qparts := splitOnChar '?' request
  let cmd := if qparts.length ≥ 2 then qparts.headD [] else request
  let args := if qparts.length ≥ 2 then qparts.getD 1 [] else []
  let rt_err : RequestType × Option (List Char) :=
    if cmd = "/json".toList ∧ args ≠ [] ∧ args ≠ "live=true".toList then
      (RequestType.ERROR, some "If json cmd is specified, args must be empty or live=true.".toList)
    else if cmd = "/get-version".toList then (RequestType.GET_VERSION, none)
    else if cmd = "/get-earliest-timestamp".toList then (RequestType.GET_EARLIEST_TIMESTAMP, none)
    else if cmd = "/fetch-current-record".toList ∨ (cmd = "/json".toList ∧ args = "live=true".toList) then
      (RequestType.FETCH_CURRENT_RECORD, none)
    else if cmd = "/fetch-two-minute-record".toList ∨ cmd = "/json".toList then
      (RequestType.FETCH_TWO_MINUTE_RECORD, none)
    else if cmd = "/fetch-archive-records".toList then (RequestType.FETCH_ARCHIVE_RECORDS, none)
    else if cmd = "/".toList then (RequestType.ERROR, some "A command must be specified.".toList)
    else (RequestType.ERROR, some ("Unknown command: ".toList ++ cmd ++ ".".toList))
  let rt0 := rt_err.1
  let err0 := rt_err.2
  if rt0 ≠ RequestType.ERROR then
    let args_dict := parse_args args
    if rt0 = RequestType.FETCH_ARCHIVE_RECORDS then
      match dictGet args_dict "since_ts".toList with
      | none =>
        { request_type := RequestType.ERROR, since_ts := none, max_ts := none, limit := none,
          error := some "fetch-archive-records requires since_ts argument".toList,
          request := request }
      | some v =>
        let st : RequestType × Option ℤ × Option (List Char) :=
          match pyIntOfChars v with
          | some n => (rt0, some n, err0)
          | none =>
            (RequestType.ERROR, none,
              some ("The since_ts argument must be an integer, found: ".toList ++ v ++ ".".toList))
        let mt : RequestType × Option ℤ × Option (List Char) :=
          match dictGet args_dict "max_ts".toList with
          | none => (st.1, none, st.2.2)
          | some mv =>
            match pyIntOfChars mv with
            | some n => (st.1, some n, st.2.2)
            | none =>
              (RequestType.ERROR, none,
                some ("The max_ts argument must be an integer, found: ".toList ++ mv ++ ".".toList))
        let lt : RequestType × Option ℤ × Option (List Char) :=
          match dictGet args_dict "limit".toList with
          | none => (mt.1, none, mt.2.2)
          | some lv =>
            match pyIntOfChars lv with
            | some n => (mt.1, some n, mt.2.2)
            | none =>
              (RequestType.ERROR, none,
                some ("The limit argument must be an integer, found: ".toList ++ lv ++ ".".toList))
        { request_type := lt.1, since_ts := st.2.1, max_ts := mt.2.1, limit := lt.2.1,
          error := lt.2.2, request := request }
    else
      { request_type := rt0, since_ts := none, max_ts := none, limit := none, error := err0,
        request := request }
  else
    { request_type := rt0, since_ts := none, max_ts := none, limit := none, error := err0,
      request := request }

/-- Python truthiness of the `Optional[int]` value `request.since_ts` as the
bare `assert(request.since_ts)` of `Handler.do_GET` evaluates it: `None` and
`0` are falsy. -/
def pyTruthyOptInt : Option ℤ → Bool
  | none => false
  | some n => decide (n ≠ 0)

/-- The `FETCH_ARCHIVE_RECORDS` branch of `Handler.do_GET`:
`assert(request.since_ts)`, then
`fetch_archive_readings(request.since_ts, request.max_ts, request.limit)`.
A failed assert raises `AssertionError` before anything is served, modelled as
`none`. -/
def do_GET_fetch_archive (db : Db) (req : Request) : Option (Except DbError (List Reading)) :=
  if pyTruthyOptInt req.since_ts then
    some (fetch_readings db RecordType.ARCHIVE (req.since_ts.getD 0) req.max_ts req.limit)
  else none

example :
    (parse_requestline "GET /fetch-archive-records?since_ts=0 HTTP/1.1".toList).request_type =
      RequestType.FETCH_ARCHIVE_RECORDS := by decide

example :
    (parse_requestline "GET /fetch-archive-records?since_ts=0 HTTP/1.1".toList).since_ts =
      some 0 := by decide

example :
    (parse_requestline "GET /fetch-archive-records?since_ts=100,max_ts=200,limit=5 HTTP/1.1".toList) =
      { request_type := RequestType.FETCH_ARCHIVE_RECORDS, since_ts := some 100,
        max_ts := some 200, limit := some 5, error := none,
        request := "/fetch-archive-records?since_ts=100,max_ts=200,limit=5".toList } := by decide

example : compute_next_event 299 30 300 5 = (Event.ARCHIVE, 6) := by
  norm_num [compute_next_event, pyint]

example : compute_next_event 250 30 300 5 = (Event.POLL, 25) := by
  norm_num [compute_next_event, pyint]

/-- The per-channel disagreement condition of claim C1: both values nonzero,
one exceeding twenty times the other, absolute difference at least 10.0. -/
def channelDisagrees (a b : ℚ) : Prop :=
  a ≠ 0 ∧ b ≠ 0 ∧ (a > 20 * b ∨ b > 20 * a) ∧ 10 ≤ |a - b|

theorem twenty_fold_delta_of_disagrees {a b : ℚ} (h : channelDisagrees a b) :
    twenty_fold_delta a b = true := by
  obtain ⟨ha, hb, hratio, habs⟩ := h
  unfold twenty_fold_delta
  rw [if_neg (by tauto)]
  exact decide_eq_true ⟨hratio, habs⟩

/-- C1: for a dual-sensor reading, validation fails whenever one of the three
cf-1 channels disagrees (both values nonzero, ratio above 20, absolute
difference at least 10); `twenty_fold_delta` is false whenever either argument
is zero, and false on (0.58, 0.025) because the absolute difference is below
10.0. -/
theorem C1_cross_sensor_check :
    (∀ (now : ℤ) (r : Reading) (sb : SensorData), r.sensor_b = some sb →
      (channelDisagrees r.sensor.pm1_0_cf_1 sb.pm1_0_cf_1 ∨
        channelDisagrees r.sensor.pm2_5_cf_1 sb.pm2_5_cf_1 ∨
        channelDisagrees r.sensor.pm10_0_cf_1 sb.pm10_0_cf_1) →
      validate now r = false) ∧
    (∀ a b : ℚ, a = 0 ∨ b = 0 → twenty_fold_delta a b = false) ∧
    twenty_fold_delta (58/100) (25/1000) = false := by
  refine ⟨?_, ?_, ?_⟩
  · intro now r sb hsb hch
    unfold validate
    by_cases htime : ¬ (|now - r.time_of_reading| ≤ 20)
    · rw [if_pos htime]
    · rw [if_neg htime, hsb]
      rcases hch with h | h | h <;> simp [twenty_fold_delta_of_disagrees h]
  · intro a b h
    unfold twenty_fold_delta
    rw [if_pos h]
  · unfold twenty_fold_delta
    rw [if_neg (by norm_num)]
    rw [decide_eq_false_iff_not]
    rintro ⟨-, habs⟩
    rw [abs_of_nonneg (by norm_num)] at habs
    norm_num at habs

/-- Concrete dual-sensor fixture whose pm1.0 cf-1 channel disagrees (100 vs
1). -/
def disagreeReading : Reading :=
  { baseReading with
      sensor := { zeroSensor with pm1_0_cf_1 := 100 }
      sensor_b := some { zeroSensor with pm1_0_cf_1 := 1 } }

theorem C1_cross_sensor_check_witness :
    disagreeReading.sensor_b = some { zeroSensor with pm1_0_cf_1 := 1 } ∧
      validate 5 disagreeReading = false :=
  ⟨rfl,
    C1_cross_sensor_check.1 5 disagreeReading { zeroSensor with pm1_0_cf_1 := 1 } rfl
      (Or.inl ⟨by norm_num [disagreeReading, baseReading, zeroSensor],
        by norm_num [disagreeReading, baseReading, zeroSensor],
        Or.inl (by norm_num [disagreeReading, baseReading, zeroSensor]),
        by norm_num [disagreeReading, baseReading, zeroSensor]⟩)⟩

/-- C6: a reading whose timestamp lies more than 20 seconds from wall-clock
now fails validation, so the loop appends it to neither buffer and does not
persist it as `CURRENT`. -/
theorem C6_stale_rejected (now : ℤ) (r : Reading)
    (archive_readings two_minute_readings : List Reading) (db : Db)
    (hstale : 20 < |now - r.time_of_reading|) :
    validate now r = false ∧
      process_sample now r archive_readings two_minute_readings db =
        (archive_readings, two_minute_readings, db) := by
  have hv : validate now r = false := by
    unfold validate
    rw [if_pos (not_le.mpr hstale)]
  refine ⟨hv, ?_⟩
  unfold process_sample
  rw [hv]
  simp

theorem C6_stale_rejected_witness :
    validate 100 baseReading = false ∧
      process_sample 100 baseReading [] [] dbEmpty = ([], [], dbEmpty) :=
  C6_stale_rejected 100 baseReading [] [] dbEmpty
    (by norm_num [baseReading])

/-- C9: for every record type, a reading with `gas_680` present but one of the
other four secondary-suite fields absent makes `save_reading` fail
(`insert_reading_sql` is unbound, raising `UnboundLocalError` inside the
transaction), and the store is left unmodified: the error return carries no
new state, the caller keeps `db`, and the transaction's deletes are rolled
back. -/
theorem C9_partial_suite_save_fails (record_type : ℤ) (r : Reading) (db : Db)
    (hg : r.gas_680.isSome)
    (hmiss : r.current_temp_f_680 = none ∨ r.current_humidity_680 = none ∨
      r.current_dewpoint_f_680 = none ∨ r.pressure_680 = none) :
    save_reading record_type r db = Except.error DbError.missing680 := by
  have hrow : readingRowOf record_type r = none := by
    obtain ⟨g, hgeq⟩ := Option.isSome_iff_exists.mp hg
    unfold readingRowOf
    rw [hgeq]
    rcases ht : r.current_temp_f_680 with _ | t6 <;>
      rcases hh : r.current_humidity_680 with _ | h6 <;>
        rcases hd : r.current_dewpoint_f_680 with _ | d6 <;>
          rcases hp : r.pressure_680 with _ | p6 <;>
            simp_all
  unfold save_reading
  rw [hrow]

theorem C9_partial_suite_save_fails_witness :
    save_reading RecordType.ARCHIVE { baseReading with gas_680 := some 42 } dbEmpty =
      Except.error DbError.missing680 :=
  C9_partial_suite_save_fails RecordType.ARCHIVE { baseReading with gas_680 := some 42 }
    dbEmpty (by simp [baseReading]) (Or.inl (by simp [baseReading]))

/-- C10: the request line `/fetch-archive-records?since_ts=0` is classified
`FETCH_ARCHIVE_RECORDS` with `since_ts = 0`, yet `do_GET`'s bare
`assert(request.since_ts)` tests truthiness, so the legal exclusive lower
bound 0 fails the assert and no records are served (the handler raises
`AssertionError` instead). -/
theorem C10_since_ts_zero_assert :
    (parse_requestline "GET /fetch-archive-records?since_ts=0 HTTP/1.1".toList).request_type =
        RequestType.FETCH_ARCHIVE_RECORDS ∧
      (parse_requestline "GET /fetch-archive-records?since_ts=0 HTTP/1.1".toList).since_ts =
        some 0 ∧
      do_GET_fetch_archive dbEmpty
          (parse_requestline "GET /fetch-archive-records?since_ts=0 HTTP/1.1".toList) =
        none :=
  ⟨by decide, by decide, rfl⟩

theorem pyint_div_eq_floor {x : ℚ} {d : ℤ} (hx : 0 ≤ x) (hd : 0 < d) :
    pyint (x / (d : ℚ)) = ⌊x / (d : ℚ)⌋ :=
  pyint_eq_floor_of_nonneg (div_nonneg hx (by exact_mod_cast hd.le))

/-- The quantity `int(now / d) * d + d` computed by `compute_next_event` is the
unique multiple of `d` in the window `(now, now + d]`. -/
theorem next_multiple_bounds (x : ℚ) (hx : 0 ≤ x) (d : ℤ) (hd : 0 < d) :
    x < ((pyint (x / (d : ℚ)) * d + d : ℤ) : ℚ) ∧
      ((pyint (x / (d : ℚ)) * d + d : ℤ) : ℚ) - (d : ℚ) ≤ x := by
  have hdq : (0 : ℚ) < (d : ℚ) := by exact_mod_cast hd
  rw [pyint_div_eq_floor hx hd]
  constructor
  · have h1 : x / (d : ℚ) < (⌊x / (d : ℚ)⌋ : ℚ) + 1 := Int.lt_floor_add_one _
    have h2 : x < ((⌊x / (d : ℚ)⌋ : ℚ) + 1) * (d : ℚ) := (div_lt_iff₀ hdq).mp h1
    push_cast
    linarith
  · have h1 : (⌊x / (d : ℚ)⌋ : ℚ) ≤ x / (d : ℚ) := Int.floor_le _
    have h2 : (⌊x / (d : ℚ)⌋ : ℚ) * (d : ℚ) ≤ x := (le_div_iff₀ hdq).mp h1
    push_cast
    linarith

/-- Two multiples of `A` in the window `(now, now + A]` coincide. -/
theorem window_multiple_unique {now : ℚ} {A : ℤ} (hA : 0 < A) {m n : ℤ}
    (hm1 : now < ((m * A : ℤ) : ℚ)) (hm2 : ((m * A : ℤ) : ℚ) - (A : ℚ) ≤ now)
    (hn1 : now < ((n * A : ℤ) : ℚ)) (hn2 : ((n * A : ℤ) : ℚ) - (A : ℚ) ≤ now) :
    m = n := by
  have hAq : (0 : ℚ) < (A : ℚ) := by exact_mod_cast hA
  have hmn : m ≤ n := by
    have h : ((m : ℚ) - 1) * (A : ℚ) < (n : ℚ) * (A : ℚ) := by
      push_cast at hm2 hn1 ⊢
      nlinarith
    have h2 : (m : ℚ) - 1 < (n : ℚ) := (mul_lt_mul_right hAq).mp h
    have h3 : (m : ℤ) - 1 < n := by exact_mod_cast h2
    omega
  have hnm : n ≤ m := by
    have h : ((n : ℚ) - 1) * (A : ℚ) < (m : ℚ) * (A : ℚ) := by
      push_cast at hn2 hm1 ⊢
      nlinarith
    have h2 : (n : ℚ) - 1 < (m : ℚ) := (mul_lt_mul_right hAq).mp h
    have h3 : (n : ℤ) - 1 < m := by exact_mod_cast h2
    omega
  omega

/-- C8: with `A mod P = 0`, `compute_next_event` sleeps until the next multiple
of `P` after now, plus the offset `O` (the wake instant is `M + O` where `M`
is the unique multiple of `P` with `now < M ≤ now + P`), and classifies the
event `ARCHIVE` exactly when that grid instant `M` is also a multiple of `A`,
else `POLL`. -/
theorem C8_compute_next_event (now : ℚ) (P A O : ℤ) (M : ℤ)
    (hnow : 0 ≤ now) (hP : 0 < P) (hA : 0 < A) (hAP : A % P = 0)
    (hM : M = pyint (now / (P : ℚ)) * P + P) :
    now + (compute_next_event now P A O).2 = (M : ℚ) + (O : ℚ) ∧
      now < (M : ℚ) ∧ (M : ℚ) - (P : ℚ) ≤ now ∧ P ∣ M ∧
      ((compute_next_event now P A O).1 = Event.ARCHIVE ↔ A ∣ M) := by
  have hPdvdA : P ∣ A := Int.dvd_of_emod_eq_zero hAP
  have hPA : P ≤ A := Int.le_of_dvd hA hPdvdA
  have hboundsP := next_multiple_bounds now hnow P hP
  have hboundsA := next_multiple_bounds now hnow A hA
  refine ⟨?_, ?_, ?_, ?_, ?_⟩
  · unfold compute_next_event
    rw [hM]
    push_cast
    ring
  · rw [hM]; exact hboundsP.1
  · rw [hM]; exact hboundsP.2
  · exact ⟨pyint (now / (P : ℚ)) + 1, by rw [hM]; ring⟩
  · have hevent : (compute_next_event now P A O).1 = Event.ARCHIVE ↔
        pyint (now / (P : ℚ)) * P + P = pyint (now / (A : ℚ)) * A + A := by
      unfold compute_next_event
      by_cases heq : pyint (now / (P : ℚ)) * P + P = pyint (now / (A : ℚ)) * A + A
      · simp [heq]
      · simp [heq]
    rw [hevent]
    constructor
    · intro heq
      exact ⟨pyint (now / (A : ℚ)) + 1, by rw [hM, heq]; ring⟩
    · intro hdvd
      obtain ⟨m, hm⟩ := hdvd
      rw [Int.mul_comm] at hm
      have harcmul : pyint (now / (A : ℚ)) * A + A = (pyint (now / (A : ℚ)) + 1) * A := by
        ring
      have hMwin1 : now < ((m * A : ℤ) : ℚ) := by
        rw [← hm, hM]; exact hboundsP.1
      have hMwin2 : ((m * A : ℤ) : ℚ) - (A : ℚ) ≤ now := by
        rw [← hm, hM]
        have h2 := hboundsP.2
        have hcast : ((P : ℤ) : ℚ) ≤ ((A : ℤ) : ℚ) := by exact_mod_cast hPA
        linarith
      have harc1 : now < (((pyint (now / (A : ℚ)) + 1) * A : ℤ) : ℚ) := by
        rw [← harcmul]; exact hboundsA.1
      have harc2 : (((pyint (now / (A : ℚ)) + 1) * A : ℤ) : ℚ) - (A : ℚ) ≤ now := by
        rw [← harcmul]; exact hboundsA.2
      have hmeq : m = pyint (now / (A : ℚ)) + 1 :=
        window_multiple_unique hA hMwin1 hMwin2 harc1 harc2
      rw [← hM, hm, hmeq]
      ring

theorem C8_compute_next_event_witness :
    (299 : ℚ) + (compute_next_event 299 30 300 5).2 = ((300 : ℤ) : ℚ) + ((5 : ℤ) : ℚ) ∧
      (299 : ℚ) < ((300 : ℤ) : ℚ) ∧ (((300 : ℤ) : ℚ)) - ((30 : ℤ) : ℚ) ≤ 299 ∧
      (30 : ℤ) ∣ 300 ∧
      ((compute_next_event 299 30 300 5).1 = Event.ARCHIVE ↔ (300 : ℤ) ∣ 300) :=
  C8_compute_next_event 299 30 300 5 300 (by norm_num) (by norm_num) (by norm_num)
    (by decide) (by norm_num [pyint])

theorem pyint_avg2_eq_floor {x y : ℤ} (hs : 0 ≤ x + y) :
    pyint (((x : ℚ) + (y : ℚ)) / 2 + 2⁻¹) = ⌊((x : ℚ) + (y : ℚ)) / 2 + 2⁻¹⌋ := by
  apply pyint_eq_floor_of_nonneg
  have hq : (0 : ℚ) ≤ (x : ℚ) + (y : ℚ) := by exact_mod_cast hs
  linarith

/-- C2 (amended): averaging two readings divides every summed field by two;
the float fields come out as the exact mean, and each integer field comes out
as `int(sum/2 + 0.5)`, which equals `floor(sum/2 + 0.5)` whenever the summed
field is non-negative (stated here under those non-negativity hypotheses; for
negative sums Python `int` truncates toward zero instead, see the
counterexample). -/
theorem C2_pair_average (a b : Reading)
    (ht : 0 ≤ a.current_temp_f + b.current_temp_f)
    (hh : 0 ≤ a.current_humidity + b.current_humidity)
    (hd : 0 ≤ a.current_dewpoint_f + b.current_dewpoint_f)
    (haqi : 0 ≤ a.sensor.pm2_5_aqi + b.sensor.pm2_5_aqi)
    (hred : 0 ≤ a.sensor.p25aqic.red + b.sensor.p25aqic.red)
    (hgreen : 0 ≤ a.sensor.p25aqic.green + b.sensor.p25aqic.green)
    (hblue : 0 ≤ a.sensor.p25aqic.blue + b.sensor.p25aqic.blue) :
    (compute_avg [a, b]).map Reading.current_temp_f =
        some ⌊((a.current_temp_f : ℚ) + (b.current_temp_f : ℚ)) / 2 + 1/2⌋ ∧
      (compute_avg [a, b]).map Reading.current_humidity =
        some ⌊((a.current_humidity : ℚ) + (b.current_humidity : ℚ)) / 2 + 1/2⌋ ∧
      (compute_avg [a, b]).map Reading.current_dewpoint_f =
        some ⌊((a.current_dewpoint_f : ℚ) + (b.current_dewpoint_f : ℚ)) / 2 + 1/2⌋ ∧
      (compute_avg [a, b]).map Reading.pressure = some ((a.pressure + b.pressure) / 2) ∧
      (compute_avg [a, b]).map (fun r => r.sensor.pm2_5_aqi) =
        some ⌊((a.sensor.pm2_5_aqi : ℚ) + (b.sensor.pm2_5_aqi : ℚ)) / 2 + 1/2⌋ ∧
      (compute_avg [a, b]).map (fun r => r.sensor.p25aqic.red) =
        some ⌊((a.sensor.p25aqic.red : ℚ) + (b.sensor.p25aqic.red : ℚ)) / 2 + 1/2⌋ ∧
      (compute_avg [a, b]).map (fun r => r.sensor.p25aqic.green) =
        some ⌊((a.sensor.p25aqic.green : ℚ) + (b.sensor.p25aqic.green : ℚ)) / 2 + 1/2⌋ ∧
      (compute_avg [a, b]).map (fun r => r.sensor.p25aqic.blue) =
        some ⌊((a.sensor.p25aqic.blue : ℚ) + (b.sensor.p25aqic.blue : ℚ)) / 2 + 1/2⌋ ∧
      (compute_avg [a, b]).map (fun r => r.sensor.pm1_0_cf_1) =
        some ((a.sensor.pm1_0_cf_1 + b.sensor.pm1_0_cf_1) / 2) ∧
      (compute_avg [a, b]).map (fun r => r.sensor.pm1_0_atm) =
        some ((a.sensor.pm1_0_atm + b.sensor.pm1_0_atm) / 2) ∧
      (compute_avg [a, b]).map (fun r => r.sensor.pm2_5_cf_1) =
        some ((a.sensor.pm2_5_cf_1 + b.sensor.pm2_5_cf_1) / 2) ∧
      (compute_avg [a, b]).map (fun r => r.sensor.pm2_5_atm) =
        some ((a.sensor.pm2_5_atm + b.sensor.pm2_5_atm) / 2) ∧
      (compute_avg [a, b]).map (fun r => r.sensor.pm10_0_cf_1) =
        some ((a.sensor.pm10_0_cf_1 + b.sensor.pm10_0_cf_1) / 2) ∧
      (compute_avg [a, b]).map (fun r => r.sensor.pm10_0_atm) =
        some ((a.sensor.pm10_0_atm + b.sensor.pm10_0_atm) / 2) ∧
      (compute_avg [a, b]).map (fun r => r.sensor.p_0_3_um) =
        some ((a.sensor.p_0_3_um + b.sensor.p_0_3_um) / 2) ∧
      (compute_avg [a, b]).map (fun r => r.sensor.p_0_5_um) =
        some ((a.sensor.p_0_5_um + b.sensor.p_0_5_um) / 2) ∧
      (compute_avg [a, b]).map (fun r => r.sensor.p_1_0_um) =
        some ((a.sensor.p_1_0_um + b.sensor.p_1_0_um) / 2) ∧
      (compute_avg [a, b]).map (fun r => r.sensor.p_2_5_um) =
        some ((a.sensor.p_2_5_um + b.sensor.p_2_5_um) / 2) ∧
      (compute_avg [a, b]).map (fun r => r.sensor.p_5_0_um) =
        some ((a.sensor.p_5_0_um + b.sensor.p_5_0_um) / 2) ∧
      (compute_avg [a, b]).map (fun r => r.sensor.p_10_0_um) =
        some ((a.sensor.p_10_0_um + b.sensor.p_10_0_um) / 2) := by
  refine ⟨?_, ?_, ?_, ?_, ?_, ?_, ?_, ?_, ?_, ?_, ?_, ?_, ?_, ?_, ?_, ?_, ?_, ?_, ?_, ?_⟩ <;>
    simp [compute_avg, sum_step, average_sensor, sum_sensor, sum_rgb]
  · exact pyint_avg2_eq_floor ht
  · exact pyint_avg2_eq_floor hh
  · exact pyint_avg2_eq_floor hd
  · exact pyint_avg2_eq_floor haqi
  · exact pyint_avg2_eq_floor hred
  · exact pyint_avg2_eq_floor hgreen
  · exact pyint_avg2_eq_floor hblue

/-- Concrete pair mirroring the repository's own `test_compute_avg` values for
temperature, humidity and AQI. -/
def readingA : Reading :=
  { baseReading with
      current_temp_f := 50
      current_humidity := 40
      current_dewpoint_f := 30
      pressure := 1026
      sensor := { zeroSensor with pm2_5_aqi := 9 } }

/-- Second half of the concrete pair. -/
def readingB : Reading :=
  { baseReading with
      time_of_reading := 6
      current_temp_f := 100
      current_humidity := 20
      current_dewpoint_f := 40
      pressure := 1024
      sensor := { zeroSensor with pm2_5_aqi := 2 } }

theorem C2_pair_average_witness :
    (compute_avg [readingA, readingB]).map Reading.current_temp_f = some 75 ∧
      (compute_avg [readingA, readingB]).map Reading.current_humidity = some 30 ∧
      (compute_avg [readingA, readingB]).map Reading.pressure = some 1025 ∧
      (compute_avg [readingA, readingB]).map (fun r => r.sensor.pm2_5_aqi) = some 6 := by
  have h := C2_pair_average readingA readingB
    (by norm_num [readingA, readingB, baseReading, zeroSensor])
    (by norm_num [readingA, readingB, baseReading, zeroSensor])
    (by norm_num [readingA, readingB, baseReading, zeroSensor])
    (by norm_num [readingA, readingB, baseReading, zeroSensor])
    (by norm_num [readingA, readingB, baseReading, zeroSensor])
    (by norm_num [readingA, readingB, baseReading, zeroSensor])
    (by norm_num [readingA, readingB, baseReading, zeroSensor])
  refine ⟨?_, ?_, ?_, ?_⟩
  · rw [h.1]
    norm_num [readingA, readingB, baseReading, zeroSensor]
  · rw [h.2.1]
    norm_num [readingA, readingB, baseReading, zeroSensor]
  · rw [h.2.2.2.1]
    norm_num [readingA, readingB, baseReading, zeroSensor]
  · rw [h.2.2.2.2.1]
    norm_num [readingA, readingB, baseReading, zeroSensor]

/-- Reading with a negative temperature, refuting the unrestricted floor
claim. -/
def rNegTemp : Reading := { baseReading with current_temp_f := -2 }

/-- C2 counterexample: averaging two readings of temperature -2 yields -1
(Python `int(-4/2 + 0.5) = int(-1.5)` truncates toward zero), while
`floor((-2 + -2)/2 + 0.5) = -2`, so the claim's unrestricted
`floor(sum/2 + 0.5)` description of the integer fields is false. -/
theorem C2_counterexample :
    (compute_avg [rNegTemp, rNegTemp]).map Reading.current_temp_f = some (-1) ∧
      (⌊((rNegTemp.current_temp_f : ℚ) + (rNegTemp.current_temp_f : ℚ)) / 2 + 1/2⌋ : ℤ) = -2 := by
  constructor
  · simp [compute_avg, sum_step, average_sensor, sum_sensor, sum_rgb, env680Sum, rNegTemp,
      baseReading, zeroSensor, pyint]
    norm_num
  · norm_num [rNegTemp, baseReading]

/-- All five secondary-suite fields present. -/
def suiteAll (r : Reading) : Prop :=
  r.current_temp_f_680.isSome = true ∧ r.current_humidity_680.isSome = true ∧
    r.current_dewpoint_f_680.isSome = true ∧ r.pressure_680.isSome = true ∧
    r.gas_680.isSome = true

/-- All five secondary-suite fields absent. -/
def suiteNone (r : Reading) : Prop :=
  r.current_temp_f_680 = none ∧ r.current_humidity_680 = none ∧
    r.current_dewpoint_f_680 = none ∧ r.pressure_680 = none ∧ r.gas_680 = none

/-- Presence pattern of the five secondary-suite fields. -/
def suitePattern (r : Reading) : Bool × Bool × Bool × Bool × Bool :=
  (r.current_temp_f_680.isSome, r.current_humidity_680.isSome,
    r.current_dewpoint_f_680.isSome, r.pressure_680.isSome, r.gas_680.isSome)

theorem env680Sum_isSome (s r : Reading) :
    (env680Sum s r).isSome = true ↔ suiteAll s ∧ suiteAll r := by
  unfold env680Sum suiteAll
  rcases s.current_temp_f_680 with _ | a1 <;> rcases r.current_temp_f_680 with _ | b1 <;>
    rcases s.current_humidity_680 with _ | a2 <;> rcases r.current_humidity_680 with _ | b2 <;>
    rcases s.current_dewpoint_f_680 with _ | a3 <;> rcases r.current_dewpoint_f_680 with _ | b3 <;>
    rcases s.pressure_680 with _ | a4 <;> rcases r.pressure_680 with _ | b4 <;>
    rcases s.gas_680 with _ | a5 <;> rcases r.gas_680 with _ | b5 <;> simp

theorem sum_step_suiteAll (s r : Reading) :
    suiteAll (sum_step s r) ↔ suiteAll s ∧ suiteAll r := by
  rw [← env680Sum_isSome s r]
  cases h : env680Sum s r <;> simp [sum_step, suiteAll, h]

theorem sum_step_allOrNone (s r : Reading) :
    suiteAll (sum_step s r) ∨ suiteNone (sum_step s r) := by
  cases h : env680Sum s r with
  | none => right; simp [sum_step, suiteNone, h]
  | some v => left; simp [sum_step, suiteAll, h]

theorem foldl_sum_step_suiteAll (l : List Reading) (s : Reading) :
    suiteAll (l.foldl sum_step s) ↔ suiteAll s ∧ ∀ r ∈ l, suiteAll r := by
  induction l generalizing s with
  | nil => simp
  | cons r l ih =>
    simp only [List.foldl_cons, ih, sum_step_suiteAll, List.forall_mem_cons]
    tauto

theorem foldl_sum_step_allOrNone (l : List Reading) (s : Reading) (hl : l ≠ []) :
    suiteAll (l.foldl sum_step s) ∨ suiteNone (l.foldl sum_step s) := by
  induction l generalizing s with
  | nil => exact absurd rfl hl
  | cons r l ih =>
    cases l with
    | nil => simpa using sum_step_allOrNone s r
    | cons r2 l2 => simpa using ih (sum_step s r) (by simp)

theorem isSome_eq_false_iff {α : Type} (o : Option α) : o.isSome = false ↔ o = none := by
  cases o <;> simp

theorem compute_avg_suitePattern (r0 : Reading) (rest : List Reading) :
    (compute_avg (r0 :: rest)).map suitePattern =
      some (suitePattern (rest.foldl sum_step r0)) := by
  simp only [compute_avg, suitePattern, Option.map_some', Option.some.injEq]
  rcases (rest.foldl sum_step r0).current_temp_f_680 with _ | a1 <;>
    rcases (rest.foldl sum_step r0).current_humidity_680 with _ | a2 <;>
    rcases (rest.foldl sum_step r0).current_dewpoint_f_680 with _ | a3 <;>
    rcases (rest.foldl sum_step r0).pressure_680 with _ | a4 <;>
    rcases (rest.foldl sum_step r0).gas_680 with _ | a5 <;> simp

theorem suiteAll_iff_pattern (r : Reading) :
    suiteAll r ↔ suitePattern r = (true, true, true, true, true) := by
  simp [suiteAll, suitePattern, Prod.ext_iff]

theorem suiteNone_iff_pattern (r : Reading) :
    suiteNone r ↔ suitePattern r = (false, false, false, false, false) := by
  simp [suiteNone, suitePattern, Prod.ext_iff, isSome_eq_false_iff]

/-- C7 (amended): for input lists with at least two readings, `compute_avg`'s
output carries all five secondary-suite fields exactly when every input
carries all five, and otherwise all five output fields are absent; a singleton
input, however, passes its own presence pattern through verbatim, so a partial
suite in a single-reading window survives into the output (see the
counterexample). -/
theorem C7_suite_all_or_nothing :
    (∀ (r0 r1 : Reading) (rest : List Reading) (out : Reading),
      compute_avg (r0 :: r1 :: rest) = some out →
      ((suiteAll out ↔ ∀ r ∈ r0 :: r1 :: rest, suiteAll r) ∧
        (¬ (∀ r ∈ r0 :: r1 :: rest, suiteAll r) → suiteNone out))) ∧
    (∀ r : Reading, (compute_avg [r]).map suitePattern = some (suitePattern r)) := by
  constructor
  · intro r0 r1 rest out h
    have hpat := compute_avg_suitePattern r0 (r1 :: rest)
    rw [h] at hpat
    simp only [Option.map_some', Option.some.injEq] at hpat
    have hall : suiteAll out ↔ suiteAll ((r1 :: rest).foldl sum_step r0) := by
      rw [suiteAll_iff_pattern, suiteAll_iff_pattern, hpat]
    have hnone : suiteNone out ↔ suiteNone ((r1 :: rest).foldl sum_step r0) := by
      rw [suiteNone_iff_pattern, suiteNone_iff_pattern, hpat]
    constructor
    · rw [hall, foldl_sum_step_suiteAll]
      simp only [List.forall_mem_cons]
    · intro hnot
      rw [hnone]
      rcases foldl_sum_step_allOrNone (r1 :: rest) r0 (by simp) with hA | hN
      · exfalso
        apply hnot
        rw [foldl_sum_step_suiteAll] at hA
        simp only [List.forall_mem_cons] at hA ⊢
        tauto
      · exact hN
  · intro r
    simpa using compute_avg_suitePattern r []

/-- Reading with a partial secondary suite: gas present, the other four
absent. -/
def rPartialSuite : Reading := { baseReading with gas_680 := some 42 }

/-- C7 counterexample: a singleton window with a partial secondary suite
(`gas_680` present, the other four absent) averages to an output that still
has `gas_680` present and `current_temp_f_680` absent — a partial subset,
although not every input reading has all five fields. -/
theorem C7_counterexample :
    ¬ suiteAll rPartialSuite ∧
      (compute_avg [rPartialSuite]).map
          (fun r => (r.gas_680.isSome, r.current_temp_f_680.isSome)) =
        some (true, false) := by
  constructor
  · simp [suiteAll, rPartialSuite, baseReading]
  · simp [compute_avg, rPartialSuite, baseReading]

/-- Reading with the full secondary suite populated with zeros. -/
def rFullSuite : Reading :=
  { baseReading with
      current_temp_f_680 := some 0
      current_humidity_680 := some 0
      current_dewpoint_f_680 := some 0
      pressure_680 := some 0
      gas_680 := some 0 }

theorem C7_suite_all_or_nothing_witness :
    (suiteAll rFullSuite ↔ ∀ r ∈ [rFullSuite, rFullSuite], suiteAll r) ∧
      (¬ (∀ r ∈ [rFullSuite, rFullSuite], suiteAll r) → suiteNone rFullSuite) := by
  have hav : compute_avg [rFullSuite, rFullSuite] = some rFullSuite := by
    simp [compute_avg, sum_step, env680Sum, average_sensor, sum_sensor, sum_rgb, rFullSuite,
      baseReading, zeroSensor, pyint]
    norm_num
  exact C7_suite_all_or_nothing.1 rFullSuite rFullSuite [] rFullSuite hav

/-- A shared-fields row fixture for the row-pairing statements. -/
def sharedRowAt (ts : ℤ) : ReadingRow :=
  { record_type := RecordType.ARCHIVE
    timestamp := ts
    current_temp_f := 50
    current_humidity := 40
    current_dewpoint_f := 30
    pressure := 1026
    current_temp_f_680 := none
    current_humidity_680 := none
    current_dewpoint_f_680 := none
    pressure_680 := none
    gas_680 := none }

/-- A sensor-index-0 joined row at timestamp 1. -/
def joinedRowA : JoinedRow where
  shared := sharedRowAt 1
  sensorPart :=
    { record_type := RecordType.ARCHIVE
      timestamp := 1
      sensor := 0
      data := zeroSensor }

/-- A sensor-index-1 joined row at timestamp 2 — a different timestamp than
`joinedRowA`. -/
def joinedRowB2 : JoinedRow where
  shared := sharedRowAt 2
  sensorPart :=
    { record_type := RecordType.ARCHIVE
      timestamp := 2
      sensor := 1
      data := zeroSensor }

/-- C5 (amended): in `fetch_readings`' row-pairing loop, a sensor-index-1 row
arriving with no pending reading aborts the read with
`UnexpectedSensorRecord`; but a sensor-index-1 row arriving while any reading
is pending is merged into it as `sensor_b` without any timestamp comparison —
the loop relies on the SQL ordering and never checks that the row shares the
pending reading's timestamp. -/
theorem C5_row_pairing :
    (∀ (row : JoinedRow) (rest : List JoinedRow), row.sensorPart.sensor = 1 →
      processRows (row :: rest) none = Except.error DbError.unexpectedSensorRecord) ∧
    (∀ (pending : Reading) (row : JoinedRow) (rest : List JoinedRow),
      row.sensorPart.sensor = 1 →
      processRows (row :: rest) (some pending) =
        (processRows rest none).map
          (fun tail => { pending with sensor_b := some row.sensorPart.data } :: tail)) := by
  constructor
  · intro row rest h
    simp [processRows, create_reading_from_row, Sensor.B, h]
  · intro pending row rest h
    rw [processRows]
    rw [if_pos h]
    have hadd : add_to_reading_from_row pending row =
        Except.ok { pending with sensor_b := some row.sensorPart.data } := by
      unfold add_to_reading_from_row
      rw [if_neg (by rw [h]; unfold Sensor.A; omega)]
    rw [hadd]
    cases hres : processRows rest none <;> simp [hres, Except.map]

theorem C5_row_pairing_witness :
    processRows [joinedRowB2] none = Except.error DbError.unexpectedSensorRecord ∧
      processRows [joinedRowB2] (some baseReading) =
        Except.ok [{ baseReading with sensor_b := some zeroSensor }] := by
  constructor
  · exact C5_row_pairing.1 joinedRowB2 [] (by decide)
  · rw [C5_row_pairing.2 baseReading joinedRowB2 [] (by decide)]
    simp [processRows, Except.map, joinedRowB2]

/-- The reading the loop yields for the malformed stream: built from the
timestamp-1 row, with the timestamp-2 sensor row merged in as `sensor_b`. -/
def mergedAcrossTimestamps : Reading where
  time_of_reading := 1
  current_temp_f := 50
  current_humidity := 40
  current_dewpoint_f := 30
  pressure := 1026
  current_temp_f_680 := none
  current_humidity_680 := none
  current_dewpoint_f_680 := none
  pressure_680 := none
  gas_680 := none
  sensor := zeroSensor
  sensor_b := some zeroSensor

/-- C5 counterexample: a sensor-index-1 row whose timestamp (2) differs from
the pending sensor-index-0 row's timestamp (1) is silently merged as
`sensor_b` of the pending reading and yielded — no error is raised, refuting
both the only-when-same-timestamp merge condition and the must-abort
behaviour. -/
theorem C5_counterexample :
    joinedRowA.shared.timestamp ≠ joinedRowB2.shared.timestamp ∧
      processRows [joinedRowA, joinedRowB2] none = Except.ok [mergedAcrossTimestamps] :=
  ⟨by decide, rfl⟩

theorem any_false {α : Type} (l : List α) : (l.any fun _ => false) = false := by
  induction l <;> simp_all

/-- The whole secondary suite is present, or the whole suite is absent. -/
def suiteConsistent (r : Reading) : Prop :=
  (r.current_temp_f_680 = none ∧ r.current_humidity_680 = none ∧
    r.current_dewpoint_f_680 = none ∧ r.pressure_680 = none ∧ r.gas_680 = none) ∨
  (∃ t6 h6 d6 p6 g, r.current_temp_f_680 = some t6 ∧ r.current_humidity_680 = some h6 ∧
    r.current_dewpoint_f_680 = some d6 ∧ r.pressure_680 = some p6 ∧ r.gas_680 = some g)

/-- `save_reading` can build its INSERT statement: `gas_680` absent, or the
whole suite present. -/
def saveWellFormed (r : Reading) : Prop :=
  r.gas_680 = none ∨
  (∃ t6 h6 d6 p6 g, r.current_temp_f_680 = some t6 ∧ r.current_humidity_680 = some h6 ∧
    r.current_dewpoint_f_680 = some d6 ∧ r.pressure_680 = some p6 ∧ r.gas_680 = some g)

theorem readingRowOf_isSome (rt : ℤ) (r : Reading) (h : saveWellFormed r) :
    (readingRowOf rt r).isSome = true := by
  rcases h with h5 | ⟨t6, h6, d6, p6, g, e1, e2, e3, e4, e5⟩
  · simp [readingRowOf, h5]
  · simp [readingRowOf, e1, e2, e3, e4, e5]

theorem save_dbEmpty_ok (rt : ℤ) (r : Reading) (h : saveWellFormed r) :
    save_reading rt r dbEmpty =
      Except.ok
        { readingTable := (readingRowOf rt r).toList
          sensorTable := sensorRowsOf rt r } := by
  obtain ⟨row, hrow⟩ := Option.isSome_iff_exists.mp (readingRowOf_isSome rt r h)
  unfold save_reading
  rw [hrow]
  simp [deleteTier, dbEmpty, insertConflicts, any_false]

theorem fetch_single_shape (rt : ℤ) (r : Reading) (hts : 0 < r.time_of_reading)
    (hsuite : suiteConsistent r) :
    fetch_readings
        { readingTable := (readingRowOf rt r).toList
          sensorTable := sensorRowsOf rt r }
      rt 0 none none = Except.ok [r] := by
  obtain ⟨ts, ctf, chum, cdew, pres, o1, o2, o3, o4, o5, sen, sbo⟩ := r
  simp only [Reading.mk.injEq] at *
  rcases hsuite with ⟨e1, e2, e3, e4, e5⟩ | ⟨t6, h6, d6, p6, g, e1, e2, e3, e4, e5⟩ <;>
    simp only [] at e1 e2 e3 e4 e5 <;> subst e1 <;> subst e2 <;> subst e3 <;> subst e4 <;>
    subst e5 <;> rcases sbo with _ | sb <;>
    simp [fetch_readings, fetch_join, orderByTimestamp, insertByTimestamp, processRows,
      create_reading_from_row, add_to_reading_from_row, readingRowOf, sensorRowsOf,
      Sensor.A, Sensor.B, hts]

/-- C3 (amended): a Reading with a positive (whole-second) timestamp and a
consistent secondary suite (all five fields present, or all five absent),
saved via `save(ARCHIVE, r)` into an empty store, is returned by
`fetch(ARCHIVE, since_ts=0)` as exactly one Reading deep-equal to `r`,
including `sensor_b` presence.  (Timestamp 0 itself is excluded by the
exclusive `since_ts` bound — see the counterexample — and a partially present
suite either aborts the save or is not round-tripped.) -/
theorem C3_round_trip (r : Reading) (hts : 0 < r.time_of_reading)
    (hsuite : suiteConsistent r) :
    (save_reading RecordType.ARCHIVE r dbEmpty).bind
      (fun db => fetch_readings db RecordType.ARCHIVE 0 none none) = Except.ok [r] := by
  have hwf : saveWellFormed r := by
    rcases hsuite with h | h
    · exact Or.inl h.2.2.2.2
    · exact Or.inr h
  rw [save_dbEmpty_ok RecordType.ARCHIVE r hwf]
  exact fetch_single_shape RecordType.ARCHIVE r hts hsuite

/-- A fully populated reading: whole secondary suite and a B sensor. -/
def rRich : Reading :=
  { baseReading with
      current_temp_f_680 := some 105
      current_humidity_680 := some 95
      current_dewpoint_f_680 := some 85
      pressure_680 := some 1235
      gas_680 := some 42
      sensor_b := some { zeroSensor with pm1_0_cf_1 := 1 } }

theorem C3_round_trip_witness :
    (save_reading RecordType.ARCHIVE rRich dbEmpty).bind
      (fun db => fetch_readings db RecordType.ARCHIVE 0 none none) = Except.ok [rRich] :=
  C3_round_trip rRich (by norm_num [rRich, baseReading])
    (Or.inr ⟨105, 95, 85, 1235, 42, rfl, rfl, rfl, rfl, rfl⟩)

/-- Reading stamped at the epoch. -/
def rEpoch : Reading := { baseReading with time_of_reading := 0 }

/-- C3 counterexample: a Reading with timestamp 0 saves fine, but
`fetch(ARCHIVE, since_ts=0)` filters on `timestamp > 0`, so the subsequent
fetch yields zero Readings, not one deep-equal to `r`. -/
theorem C3_counterexample :
    (save_reading RecordType.ARCHIVE rEpoch dbEmpty).bind
        (fun db => fetch_readings db RecordType.ARCHIVE 0 none none) =
      Except.ok ([] : List Reading) ∧
      (Except.ok ([] : List Reading) : Except DbError (List Reading)) ≠ Except.ok [rEpoch] :=
  ⟨rfl, by simp⟩

theorem readingRowOf_keys (rt : ℤ) (r : Reading) :
    ∀ row ∈ (readingRowOf rt r).toList,
      row.record_type = rt ∧ row.timestamp = r.time_of_reading := by
  obtain ⟨ts, ctf, chum, cdew, pres, o1, o2, o3, o4, o5, sen, sbo⟩ := r
  unfold readingRowOf
  rcases o5 with _ | g <;> rcases o1 with _ | t6 <;> rcases o2 with _ | h6 <;>
    rcases o3 with _ | d6 <;> rcases o4 with _ | p6 <;> simp

theorem sensorRowsOf_record_type (rt : ℤ) (r : Reading) :
    ∀ s ∈ sensorRowsOf rt r, s.record_type = rt := by
  unfold sensorRowsOf
  rcases r.sensor_b with _ | sb <;> simp

/-- After a successful save into the empty store, deleting the saved tier
restores the empty store (every inserted row belongs to that tier). -/
theorem deleteTier_save_dbEmpty (rt : ℤ) (r : Reading) (db2 : Db)
    (hsave : save_reading rt r dbEmpty = Except.ok db2) :
    deleteTier db2 rt = dbEmpty := by
  unfold save_reading at hsave
  cases hrow : readingRowOf rt r with
  | none =>
    rw [hrow] at hsave
    exact absurd hsave (by simp)
  | some row =>
    rw [hrow] at hsave
    simp [deleteTier, dbEmpty, insertConflicts, any_false] at hsave
    have hkeys := readingRowOf_keys rt r row (by rw [hrow]; simp)
    have hsrt := sensorRowsOf_record_type rt r
    obtain ⟨hread, hsens⟩ := hsave
    unfold deleteTier dbEmpty
    rw [Db.mk.injEq]
    constructor
    · simp [hkeys.1]
    · simp only [List.filter_eq_nil_iff]
      intro s hs
      simp [hsrt s hs]

/-- When `save_reading` for `CURRENT` starts from a store whose `CURRENT` rows
were just those of one earlier save into the empty store, the deletes restore
the empty store, and the save behaves exactly as a save into the empty
store. -/
theorem save_current_eq_dbEmpty (r : Reading) (db : Db)
    (hclean : deleteTier db RecordType.CURRENT = dbEmpty) :
    save_reading RecordType.CURRENT r db = save_reading RecordType.CURRENT r dbEmpty := by
  have h1 := congrArg Db.readingTable hclean
  have h2 := congrArg Db.sensorTable hclean
  simp [deleteTier, dbEmpty, RecordType.CURRENT] at h1 h2
  unfold save_reading
  cases readingRowOf RecordType.CURRENT r with
  | none => rfl
  | some row =>
    have h1f : db.readingTable.filter (fun x => !decide (x.record_type = (0 : ℤ))) = [] := by
      rw [List.filter_eq_nil_iff]
      intro a ha
      simp [h1 a ha]
    have h2f : db.sensorTable.filter (fun x => !decide (x.record_type = (0 : ℤ))) = [] := by
      rw [List.filter_eq_nil_iff]
      intro a ha
      simp [h2 a ha]
    simp [RecordType.CURRENT, RecordType.TWO_MINUTE, deleteTier, dbEmpty, h1f, h2f]

/-- C4 (amended): two successive `CURRENT` saves followed by a `CURRENT` fetch
return exactly one record — the second one — provided the second reading has a
positive timestamp and a consistent secondary suite and the first save is
well-formed (timestamp 0 is excluded by the fetch's exclusive `since_ts=0`
bound, see the counterexample); and for the `CURRENT` and `TWO_MINUTE` tiers
every successful save replaces the store content of that tier: the new tables
are the old ones with the tier's rows deleted, followed by the freshly
inserted rows, all within one transaction. -/
theorem C4_current_replace (r1 r2 : Reading) (h1 : saveWellFormed r1)
    (hts : 0 < r2.time_of_reading) (h2 : suiteConsistent r2) :
    ((save_reading RecordType.CURRENT r1 dbEmpty).bind (fun db1 =>
        (save_reading RecordType.CURRENT r2 db1).bind (fun db2 =>
          fetch_readings db2 RecordType.CURRENT 0 none none))) = Except.ok [r2] ∧
      ∀ (record_type : ℤ) (r : Reading) (db db2 : Db),
        (record_type = RecordType.CURRENT ∨ record_type = RecordType.TWO_MINUTE) →
        save_reading record_type r db = Except.ok db2 →
        db2.readingTable =
            (deleteTier db record_type).readingTable ++ (readingRowOf record_type r).toList ∧
          db2.sensorTable = (deleteTier db record_type).sensorTable ++ sensorRowsOf record_type r := by
  constructor
  · have hwf2 : saveWellFormed r2 := by
      rcases h2 with h | h
      · exact Or.inl h.2.2.2.2
      · exact Or.inr h
    rw [save_dbEmpty_ok RecordType.CURRENT r1 h1]
    have hclean := deleteTier_save_dbEmpty RecordType.CURRENT r1 _
      (save_dbEmpty_ok RecordType.CURRENT r1 h1)
    simp only [Except.bind]
    rw [save_current_eq_dbEmpty r2 _ hclean]
    rw [save_dbEmpty_ok RecordType.CURRENT r2 hwf2]
    exact fetch_single_shape RecordType.CURRENT r2 hts h2
  · intro record_type r db db2 hrt hsave
    unfold save_reading at hsave
    cases hrow : readingRowOf record_type r with
    | none =>
      rw [hrow] at hsave
      exact absurd hsave (by simp)
    | some row =>
      rw [hrow] at hsave
      rcases hrt with rfl | rfl
      · simp only [RecordType.CURRENT, RecordType.TWO_MINUTE] at hsave ⊢
        simp at hsave
        split at hsave
        · simp at hsave
        · simp only [Except.ok.injEq] at hsave
          rw [← hsave]
          exact ⟨rfl, rfl⟩
      · simp only [RecordType.CURRENT, RecordType.TWO_MINUTE] at hsave ⊢
        simp at hsave
        split at hsave
        · simp at hsave
        · simp only [Except.ok.injEq] at hsave
          rw [← hsave]
          exact ⟨rfl, rfl⟩

theorem C4_current_replace_witness :
    ((save_reading RecordType.CURRENT baseReading dbEmpty).bind (fun db1 =>
        (save_reading RecordType.CURRENT rRich db1).bind (fun db2 =>
          fetch_readings db2 RecordType.CURRENT 0 none none))) = Except.ok [rRich] :=
  (C4_current_replace baseReading rRich (Or.inl rfl) (by norm_num [rRich, baseReading])
    (Or.inr ⟨105, 95, 85, 1235, 42, rfl, rfl, rfl, rfl, rfl⟩)).1

/-- C4 counterexample: when the second `CURRENT` reading is stamped at the
epoch (timestamp 0), the two saves succeed and replace as described, but the
`CURRENT` fetch (`fetch_readings` with exclusive `since_ts = 0`) returns zero
records rather than the second reading. -/
theorem C4_counterexample :
    ((save_reading RecordType.CURRENT baseReading dbEmpty).bind (fun db1 =>
        (save_reading RecordType.CURRENT rEpoch db1).bind (fun db2 =>
          fetch_readings db2 RecordType.CURRENT 0 none none))) = Except.ok ([] : List Reading) ∧
      (Except.ok ([] : List Reading) : Except DbError (List Reading)) ≠ Except.ok [rEpoch] :=
  ⟨rfl, by simp⟩
